import Mathlib

/-!
Shallow embedding of `src/signin_logs_dashboard.py` (a Streamlit dashboard
over Azure AD sign-in logs) together with proofs settling the spec claims.

JSON values decoded by `json.load` are modelled by the inductive type `Json`;
Python `None` and JSON `null` (and the pandas `NaN` a missing cell turns
into) are all represented by `Json.null`, since the program treats them
identically (`isinstance` checks fail on them, `value_counts`/`groupby`
drop them, `.notnull()` is false on them).  Numbers are modelled as exact
rationals.  Object keys are assumed unique, as `json.load` always produces
Python dicts.
-/

inductive Json : Type where
  | null : Json
  | bool : Bool → Json
  | num : ℚ → Json
  | str : String → Json
  | arr : List Json → Json
  | obj : List (String × Json) → Json

mutual

/-- Decidable equality on `Json`, written by hand because `deriving` does
not handle the nested inductive. -/
def decEqJ : (a b : Json) → Decidable (a = b)
  | Json.null, Json.null => isTrue rfl
  | Json.null, Json.bool _ => isFalse Json.noConfusion
  | Json.null, Json.num _ => isFalse Json.noConfusion
  | Json.null, Json.str _ => isFalse Json.noConfusion
  | Json.null, Json.arr _ => isFalse Json.noConfusion
  | Json.null, Json.obj _ => isFalse Json.noConfusion
  | Json.bool _, Json.null => isFalse Json.noConfusion
  | Json.bool a, Json.bool b =>
    if h : a = b then isTrue (by rw [h]) else isFalse (fun hh => h (Json.bool.inj hh))
  | Json.bool _, Json.num _ => isFalse Json.noConfusion
  | Json.bool _, Json.str _ => isFalse Json.noConfusion
  | Json.bool _, Json.arr _ => isFalse Json.noConfusion
  | Json.bool _, Json.obj _ => isFalse Json.noConfusion
  | Json.num _, Json.null => isFalse Json.noConfusion
  | Json.num _, Json.bool _ => isFalse Json.noConfusion
  | Json.num a, Json.num b =>
    if h : a = b then isTrue (by rw [h]) else isFalse (fun hh => h (Json.num.inj hh))
  | Json.num _, Json.str _ => isFalse Json.noConfusion
  | Json.num _, Json.arr _ => isFalse Json.noConfusion
  | Json.num _, Json.obj _ => isFalse Json.noConfusion
  | Json.str _, Json.null => isFalse Json.noConfusion
  | Json.str _, Json.bool _ => isFalse Json.noConfusion
  | Json.str _, Json.num _ => isFalse Json.noConfusion
  | Json.str a, Json.str b =>
    if h : a = b then isTrue (by rw [h]) else isFalse (fun hh => h (Json.str.inj hh))
  | Json.str _, Json.arr _ => isFalse Json.noConfusion
  | Json.str _, Json.obj _ => isFalse Json.noConfusion
  | Json.arr _, Json.null => isFalse Json.noConfusion
  | Json.arr _, Json.bool _ => isFalse Json.noConfusion
  | Json.arr _, Json.num _ => isFalse Json.noConfusion
  | Json.arr _, Json.str _ => isFalse Json.noConfusion
  | Json.arr xs, Json.arr ys =>
    match decEqJL xs ys with
    | isTrue h => isTrue (by rw [h])
    | isFalse h => isFalse (fun hh => h (Json.arr.inj hh))
  | Json.arr _, Json.obj _ => isFalse Json.noConfusion
  | Json.obj _, Json.null => isFalse Json.noConfusion
  | Json.obj _, Json.bool _ => isFalse Json.noConfusion
  | Json.obj _, Json.num _ => isFalse Json.noConfusion
  | Json.obj _, Json.str _ => isFalse Json.noConfusion
  | Json.obj _, Json.arr _ => isFalse Json.noConfusion
  | Json.obj xs, Json.obj ys =>
    match decEqJO xs ys with
    | isTrue h => isTrue (by rw [h])
    | isFalse h => isFalse (fun hh => h (Json.obj.inj hh))

/-- Decidable equality of `Json` lists, mutually with `decEqJ`. -/
def decEqJL : (xs ys : List Json) → Decidable (xs = ys)
  | [], [] => isTrue rfl
  | [], _ :: _ => isFalse List.noConfusion
  | _ :: _, [] => isFalse List.noConfusion
  | x :: xs, y :: ys =>
    match decEqJ x y with
    | isTrue h1 =>
      match decEqJL xs ys with
      | isTrue h2 => isTrue (by rw [h1, h2])
      | isFalse h2 => isFalse (fun hh => h2 (List.cons.inj hh).2)
    | isFalse h1 => isFalse (fun hh => h1 (List.cons.inj hh).1)

/-- Decidable equality of key/value lists, mutually with `decEqJ`. -/
def decEqJO : (xs ys : List (String × Json)) → Decidable (xs = ys)
  | [], [] => isTrue rfl
  | [], _ :: _ => isFalse List.noConfusion
  | _ :: _, [] => isFalse List.noConfusion
  | (k, v) :: xs, (k2, v2) :: ys =>
    if hk : k = k2 then
      match decEqJ v v2 with
      | isTrue h1 =>
        match decEqJO xs ys with
        | isTrue h2 => isTrue (by rw [hk, h1, h2])
        | isFalse h2 => isFalse (fun hh => h2 (List.cons.inj hh).2)
      | isFalse h1 => isFalse (fun hh => h1 (congrArg Prod.snd (List.cons.inj hh).1))
    else isFalse (fun hh => hk (congrArg Prod.fst (List.cons.inj hh).1))

end

instance : DecidableEq Json := decEqJ

def Json.isNull : Json → Bool
  | Json.null => true
  | _ => false

/-- `isinstance(x, dict)` -/
def Json.isObj : Json → Bool
  | Json.obj _ => true
  | _ => false

/-- `isinstance(x, str)` -/
def Json.isStr : Json → Bool
  | Json.str _ => true
  | _ => false

/-- A scalar in the sense of the pandas `DataFrame` constructor:
anything that is neither a list nor a dict. -/
def Json.isScalar : Json → Bool
  | Json.arr _ => false
  | Json.obj _ => false
  | _ => true

/-- One row of a DataFrame, i.e. one decoded record: an association list
from column name to cell value. -/
abbrev Row : Type := List (String × Json)

/-- Reading a cell of a row.  A column that is absent from the row is a
pandas `NaN` cell, which we model as `Json.null`. -/
def cell (r : Row) (c : String) : Json :=
  (List.lookup c r).getD Json.null

/-- Python subscription `x[k]` on an arbitrary value, as used inside a
`try`/`except`: `some v` when `x` is a dict holding key `k`, `none` when the
subscription raises (`KeyError` / `TypeError`). -/
def pyIndex : Json → String → Option Json
  | Json.obj kvs, k => List.lookup k kvs
  | _, _ => none

/-- The pattern `x.get(k) if isinstance(x, dict) else None` used for the
city, failure-reason and MFA-method extractions. -/
def dictGet (x : Json) (k : String) : Json :=
  match x with
  | Json.obj kvs => (List.lookup k kvs).getD Json.null
  | _ => Json.null

/-- Python `str.lower()`, modelled character-wise with Lean's character
lower-casing (ASCII letters are mapped to their lower-case form; the
status strings the program lower-cases are plain ASCII). -/
def pyLower (s : String) : String :=
  String.mk (s.data.map Char.toLower)

/-- `lambda x: x.lower() if isinstance(x, str) else None`
(derivation of the "Conditional Access" column). -/
def condAccessOf : Json → Json
  | Json.str s => Json.str (pyLower s)
  | _ => Json.null

/-- `def extract_lat(row): try: return row["geoCoordinates"]["latitude"]
except: return None` -/
def extract_lat (row : Json) : Json :=
  match pyIndex row "geoCoordinates" with
  | some g =>
    match pyIndex g "latitude" with
    | some v => v
    | none => Json.null
  | none => Json.null

/-- `def extract_lon(row): try: return row["geoCoordinates"]["longitude"]
except: return None` -/
def extract_lon (row : Json) : Json :=
  match pyIndex row "geoCoordinates" with
  | some g =>
    match pyIndex g "longitude" with
    | some v => v
    | none => Json.null
  | none => Json.null

/-- `lambda x: extract_lat(x) if isinstance(x, dict) else None` -/
def latOfLocation (x : Json) : Json :=
  if x.isObj then extract_lat x else Json.null

/-- `lambda x: extract_lon(x) if isinstance(x, dict) else None` -/
def lonOfLocation (x : Json) : Json :=
  if x.isObj then extract_lon x else Json.null

/-- A pandas DataFrame: a list of column names plus a list of rows. -/
structure Table where
  cols : List String
  rows : List Row
deriving DecidableEq

/-- Column names of a list of records in first-appearance order, the
column set `pd.DataFrame` derives from a list of dicts. -/
def unionKeys (rows : List Row) : List String :=
  rows.foldl (fun acc r => acc ++ (r.map Prod.fst).filter (fun k => decide (k ∉ acc))) []

/-- How `pd.DataFrame` turns one element of a top-level list into a row:
a dict contributes its key/value pairs, a list its positionally numbered
entries, and a scalar a single cell in column `0` (we render positional
column labels as decimal strings).  Lists mixing dicts with scalars raise
in pandas and are outside the modelled scope; no theorem below touches
them. -/
def rowOfElem : Json → Row
  | Json.obj kvs => kvs
  | Json.arr vs => ((List.range vs.length).zip vs).map (fun p => (toString p.1, p.2))
  | v => [("0", v)]

/-- The DataFrame built from a list of records. -/
def dfOfRecords (logs : List Row) : Table :=
  ⟨unionKeys logs, logs⟩

/-- Model of the `pandas.DataFrame` constructor applied to a JSON-decoded
value (`df = pd.DataFrame(logs)`), on the shapes reachable from a JSON
upload: a list becomes a table of its element rows; `None` and the empty
dict give an empty table; a non-empty dict whose values are all scalars
raises `ValueError` ("If using all scalar values, you must pass an
index"); a dict containing list values becomes a column-per-key table when
the lists agree in length (scalar values broadcast) and raises otherwise;
a dict whose non-scalar values are all dicts is laid out with the union of
the inner keys as the row index; any other scalar raises `ValueError`
("DataFrame constructor not properly called!").  Errors are returned as
`Except.error` with the pandas message. -/
def pdDataFrame : Json → Except String Table
  | Json.null => Except.ok ⟨[], []⟩
  | Json.bool _ => Except.error "DataFrame constructor not properly called!"
  | Json.num _ => Except.error "DataFrame constructor not properly called!"
  | Json.str _ => Except.error "DataFrame constructor not properly called!"
  | Json.arr xs => Except.ok (dfOfRecords (xs.map rowOfElem))
  | Json.obj kvs =>
    if kvs.isEmpty then Except.ok ⟨[], []⟩
    else if kvs.all (fun kv => kv.2.isScalar) then
      Except.error "If using all scalar values, you must pass an index"
    else
      match kvs.filterMap (fun kv => match kv.2 with | Json.arr vs => some vs.length | _ => none) with
      | [] =>
        let idx := unionKeys (kvs.filterMap (fun kv => match kv.2 with | Json.obj o => some o | _ => none))
        Except.ok ⟨kvs.map Prod.fst,
          idx.map (fun j => kvs.map (fun kv => (kv.1, match kv.2 with | Json.obj o => (List.lookup j o).getD Json.null | v => v)))⟩
      | n :: ns =>
        if ns.all (fun m => decide (m = n)) then
          Except.ok ⟨kvs.map Prod.fst,
            (List.range n).map (fun i => kvs.map (fun kv => (kv.1, match kv.2 with | Json.arr vs => vs.getD i Json.null | v => v)))⟩
        else Except.error "All arrays must be of the same length"

/-- `logs = raw_data["value"] if isinstance(raw_data, dict) and "value" in
raw_data else raw_data` -/
def unwrapEnvelope (raw : Json) : Json :=
  match raw with
  | Json.obj kvs =>
    match List.lookup "value" kvs with
    | some v => v
    | none => raw
  | _ => raw

/-- `df[c] = v` for a single row: any previous binding of column `c` is
replaced and the new cell appended. -/
def setCell (r : Row) (c : String) (v : Json) : Row :=
  (r.filter (fun kv => kv.1 != c)) ++ [(c, v)]

/-- `df[c] = ...` with a per-row function: assign column `c`, appending
the column label when it is new. -/
def setCol (t : Table) (c : String) (f : Row → Json) : Table :=
  ⟨if c ∈ t.cols then t.cols else t.cols ++ [c],
   t.rows.map (fun r => setCell r c (f r))⟩

/-- The `required_cols` list of `parse_logs`. -/
def requiredCols : List String :=
  ["conditionalAccessStatus", "userPrincipalName", "location", "createdDateTime", "userDisplayName",
   "appDisplayName", "riskState", "riskEventType_v2", "resourceDisplayName",
   "authenticationRequirement", "status", "mfaDetail", "deviceDetail"]

/-- `for col in required_cols: if col not in df.columns: df[col] = None` -/
def addMissing (cs : List String) (t : Table) : Table :=
  cs.foldl (fun t c => if c ∈ t.cols then t else setCol t c (fun _ => Json.null)) t

/-- `parse_logs` from the source, minus the `pd.DataFrame` call which is
modelled separately by `pdDataFrame`: add the required columns when
missing, then derive "Conditional Access", "User", "lat" and "lon". -/
def parse_logs (t : Table) : Table :=
  let t1 := addMissing requiredCols t
  let t2 := setCol t1 "Conditional Access" (fun r => condAccessOf (cell r "conditionalAccessStatus"))
  let t3 := setCol t2 "User" (fun r => cell r "userPrincipalName")
  let t4 := setCol t3 "lat" (fun r => latOfLocation (cell r "location"))
  let t5 := setCol t4 "lon" (fun r => lonOfLocation (cell r "location"))
  t5

/-- The whole upload path: unwrap the `value` envelope, build the
DataFrame and normalize it.  Any exception is caught by the outermost
`except` handler and surfaced as the single message
`st.error("Error processing the file: " + e)`. -/
def processUpload (raw : Json) : Except String Table :=
  match pdDataFrame (unwrapEnvelope raw) with
  | Except.ok df => Except.ok (parse_logs df)
  | Except.error e => Except.error ("Error processing the file: " ++ e)

def exceptIsOk : Except String Table → Bool
  | Except.ok _ => true
  | Except.error _ => false

/-- The values of one column, row by row. -/
def colValues (t : Table) (c : String) : List Json :=
  t.rows.map (fun r => cell r c)

/-- The distinct elements of a list in first-appearance order. -/
def dedupFirst {α : Type} [DecidableEq α] (xs : List α) : List α :=
  xs.foldl (fun acc v => if v ∈ acc then acc else acc ++ [v]) []

/-- The number of occurrences of `a` in a list. -/
def countOcc {α : Type} [DecidableEq α] (a : α) : List α → Nat
  | [] => 0
  | x :: xs => (if x = a then 1 else 0) + countOcc a xs

/-- `groupby(...).size()`: one entry per distinct key with its number of
occurrences.  Keys are enumerated in first-appearance order; pandas
enumerates groups in ascending key order instead, which can only affect
the relative order of groups with equal counts after the descending sort,
an order the spec leaves unspecified. -/
def groupCount {α : Type} [DecidableEq α] (ks : List α) : List (α × Nat) :=
  (dedupFirst ks).map (fun v => (v, countOcc v ks))

/-- Stable descending sort by count, the order `value_counts` and
`sort_values(ascending=False)` produce. -/
def sortByCountDesc {α : Type} (ps : List (α × Nat)) : List (α × Nat) :=
  List.insertionSort (fun a b => b.2 ≤ a.2) ps

instance {α : Type} : IsTotal (α × Nat) (fun a b => b.2 ≤ a.2) :=
  ⟨fun a b => Nat.le_total b.2 a.2⟩

instance {α : Type} : IsTrans (α × Nat) (fun a b => b.2 ≤ a.2) :=
  ⟨fun _ _ _ h1 h2 => Nat.le_trans h2 h1⟩

/-- `Series.value_counts()`: drop the nulls, count the distinct values and
sort by descending count. -/
def value_counts (xs : List Json) : List (Json × Nat) :=
  sortByCountDesc (groupCount (xs.filter (fun v => !v.isNull)))

/-- `df["appDisplayName"].value_counts().head(5)` -/
def top_apps (t : Table) : List (Json × Nat) :=
  (value_counts (colValues t "appDisplayName")).take 5

/-- `df["location"].apply(lambda x: x.get("city") if isinstance(x, dict)
else None).value_counts().head(5)` -/
def top_cities (t : Table) : List (Json × Nat) :=
  (value_counts ((colValues t "location").map (fun x => dictGet x "city"))).take 5

/-- `reasons = df["status"].apply(lambda x: x.get("failureReason") if
isinstance(x, dict) else None)` -/
def reasons (t : Table) : List Json :=
  (colValues t "status").map (fun x => dictGet x "failureReason")

/-- `reason_counts = reasons[reasons != "Other."].value_counts().head(10)`.
The boolean mask keeps null entries (`NaN != "Other."` is true in pandas);
they are then dropped by `value_counts`. -/
def reason_counts (t : Table) : List (Json × Nat) :=
  (value_counts ((reasons t).filter (fun v => v != Json.str "Other."))).take 10

/-- `df["mfaDetail"].apply(lambda x: x.get("authMethod") if
isinstance(x, dict) else None)` (the derived `mfaMethod` column). -/
def mfaMethods (t : Table) : List Json :=
  (colValues t "mfaDetail").map (fun x => dictGet x "authMethod")

/-- `mfa_usage = df["mfaMethod"].value_counts().head(10)` -/
def mfa_usage (t : Table) : List (Json × Nat) :=
  (value_counts (mfaMethods t)).take 10

/-- `ca_failures = df[df["Conditional Access"] == "failure"]` -/
def ca_failures (t : Table) : List Row :=
  t.rows.filter (fun r => cell r "Conditional Access" == Json.str "failure")

/-- `ca_fail_count = ca_failures.groupby("User").size().reset_index(...)
.sort_values(by="Failure Count", ascending=False)`.  `groupby` drops null
keys (`dropna=True` is the pandas default). -/
def ca_fail_count (t : Table) : List (Json × Nat) :=
  sortByCountDesc (groupCount (((ca_failures t).map (fun r => cell r "User")).filter (fun v => !v.isNull)))

/-- `all_ca_failures = df[(df["Conditional Access"] == "failure") &
df["lat"].notnull() & df["lon"].notnull()][["lat", "lon"]]` -/
def all_ca_failures (t : Table) : List (Json × Json) :=
  (t.rows.filter (fun r =>
      cell r "Conditional Access" == Json.str "failure"
        && !(cell r "lat").isNull && !(cell r "lon").isNull)).map
    (fun r => (cell r "lat", cell r "lon"))

/-- `grouped = df.groupby(["lat", "lon"]).size().reset_index(name="count")`
inside `show_failure_map`. -/
def show_failure_map_grouped (ps : List (Json × Json)) : List ((Json × Json) × Nat) :=
  groupCount ps

/-- `grouped['count'].apply(lambda x: max(500, np.sqrt(x)*20000))`, the
display radius of one group.  `np.sqrt` is modelled by the exact real
square root, hence the function is stated over `ℝ` and is the only
non-executable definition of this development. -/
noncomputable def failure_radius (c : Nat) : ℝ :=
  max 500 (Real.sqrt c * 20000)

/-- Concrete record sequence of the failure-reason scenario: failureReason
values are "Other.", "Other.", "Blocked", "Blocked", "Blocked", null. -/
def tblC6 : Table :=
  dfOfRecords [
    [("status", Json.obj [("failureReason", Json.str "Other.")])],
    [("status", Json.obj [("failureReason", Json.str "Other.")])],
    [("status", Json.obj [("failureReason", Json.str "Blocked")])],
    [("status", Json.obj [("failureReason", Json.str "Blocked")])],
    [("status", Json.obj [("failureReason", Json.str "Blocked")])],
    [("status", Json.obj [("failureReason", Json.null)])]]

/-- Concrete record sequence of the per-user failure scenario: three
conditional-access failures for user A, one for B, a success for C. -/
def tblC7 : Table :=
  dfOfRecords [
    [("userPrincipalName", Json.str "A"), ("conditionalAccessStatus", Json.str "failure")],
    [("userPrincipalName", Json.str "A"), ("conditionalAccessStatus", Json.str "failure")],
    [("userPrincipalName", Json.str "A"), ("conditionalAccessStatus", Json.str "failure")],
    [("userPrincipalName", Json.str "B"), ("conditionalAccessStatus", Json.str "failure")],
    [("userPrincipalName", Json.str "C"), ("conditionalAccessStatus", Json.str "success")]]

/-- One-record table used to instantiate the amended normalizer claim. -/
def tblC2w : Table :=
  dfOfRecords [[("appDisplayName", Json.str "Teams")]]

/-- One-record table with a non-string conditional-access status. -/
def tblC3w : Table :=
  dfOfRecords [[("conditionalAccessStatus", Json.num 7)]]

/-- One geolocated conditional-access failure. -/
def tblC8w : Table :=
  dfOfRecords [[("conditionalAccessStatus", Json.str "failure"),
    ("location", Json.obj [("geoCoordinates",
      Json.obj [("latitude", Json.num 1), ("longitude", Json.num 2)])])]]

/-- One record carrying every grouped field, used to instantiate the
null-key exclusion claim. -/
def tblC10w : Table :=
  dfOfRecords [[("appDisplayName", Json.str "Teams"),
    ("location", Json.obj [("city", Json.str "Oslo")]),
    ("mfaDetail", Json.obj [("authMethod", Json.str "OTP")]),
    ("userPrincipalName", Json.str "u"),
    ("conditionalAccessStatus", Json.str "failure")]]

theorem lookup_cons (k : String) (w : Json) (r : Row) (x : String) :
    List.lookup x ((k, w) :: r) = if x = k then some w else List.lookup x r := by
  by_cases h : x = k
  · simp [List.lookup, h]
  · have hb : (x == k) = false := beq_eq_false_iff_ne.mpr h
    simp [List.lookup, hb, h]

theorem setCell_cons_same (k : String) (w v : Json) (r : Row) :
    setCell ((k, w) :: r) k v = setCell r k v := by
  simp [setCell, List.filter_cons]

theorem setCell_cons_ne (k c : String) (w v : Json) (r : Row) (h : k ≠ c) :
    setCell ((k, w) :: r) c v = (k, w) :: setCell r c v := by
  simp [setCell, List.filter_cons, h]

theorem lookup_setCell (r : Row) (c x : String) (v : Json) :
    List.lookup x (setCell r c v) = if x = c then some v else List.lookup x r := by
  induction r with
  | nil =>
    simp [setCell, lookup_cons]
  | cons kv r ih =>
    obtain ⟨k, w⟩ := kv
    by_cases h1 : k = c
    · subst h1
      rw [setCell_cons_same, ih, lookup_cons]
      by_cases h2 : x = k <;> simp [h2]
    · rw [setCell_cons_ne k c w v r h1, lookup_cons, ih, lookup_cons]
      by_cases h2 : x = k <;> by_cases h3 : x = c <;> simp_all

theorem cell_setCell (r : Row) (c x : String) (v : Json) :
    cell (setCell r c v) x = if x = c then v else cell r x := by
  by_cases h : x = c <;> simp [cell, lookup_setCell, h]

theorem setCol_rows_mem (t : Table) (c : String) (f : Row → Json) (r' : Row)
    (h : r' ∈ (setCol t c f).rows) : ∃ r ∈ t.rows, r' = setCell r c (f r) := by
  simp only [setCol, List.mem_map] at h
  obtain ⟨r, hr, he⟩ := h
  exact ⟨r, hr, he.symm⟩

theorem addMissing_cell (cs : List String) (t : Table) (r' : Row)
    (h : r' ∈ (addMissing cs t).rows) :
    ∃ r ∈ t.rows, ∀ x, cell r' x = if x ∈ cs ∧ x ∉ t.cols then Json.null else cell r x := by
  induction cs generalizing t with
  | nil => exact ⟨r', h, fun x => by simp⟩
  | cons c cs ih =>
    rw [addMissing, List.foldl_cons] at h
    by_cases hc : c ∈ t.cols
    · rw [if_pos hc] at h
      obtain ⟨r, hr, hcell⟩ := ih t h
      refine ⟨r, hr, fun x => ?_⟩
      rw [hcell x]
      by_cases h1 : x ∈ cs <;> by_cases h2 : x ∈ t.cols <;> by_cases h3 : x = c <;>
        simp_all [List.mem_cons]
    · rw [if_neg hc] at h
      obtain ⟨r1, hr1, hcell⟩ := ih (setCol t c (fun _ => Json.null)) h
      obtain ⟨r, hr, he⟩ := setCol_rows_mem t c _ r1 hr1
      subst he
      refine ⟨r, hr, fun x => ?_⟩
      rw [hcell x, cell_setCell]
      by_cases h3 : x = c
      · subst h3
        simp [setCol, hc]
      · by_cases h1 : x ∈ cs <;> by_cases h2 : x ∈ t.cols <;>
          simp_all [setCol, hc, List.mem_append, List.mem_cons]

theorem setCol_cols_mem (t : Table) (c : String) (f : Row → Json) (x : String)
    (h : x ∈ t.cols) : x ∈ (setCol t c f).cols := by
  simp only [setCol]
  split <;> simp [h]

theorem setCol_cols_self (t : Table) (c : String) (f : Row → Json) :
    c ∈ (setCol t c f).cols := by
  simp only [setCol]
  split
  · assumption
  · simp

theorem addMissing_cols_sup (cs : List String) (t : Table) (x : String)
    (h : x ∈ t.cols) : x ∈ (addMissing cs t).cols := by
  induction cs generalizing t with
  | nil => exact h
  | cons c cs ih =>
    rw [addMissing, List.foldl_cons]
    by_cases hc : c ∈ t.cols
    · rw [if_pos hc]; exact ih t h
    · rw [if_neg hc]; exact ih _ (setCol_cols_mem t c _ x h)

theorem addMissing_cols_of_mem (cs : List String) (t : Table) (x : String)
    (h : x ∈ cs) : x ∈ (addMissing cs t).cols := by
  induction cs generalizing t with
  | nil => cases h
  | cons c cs ih =>
    rw [addMissing, List.foldl_cons]
    rcases List.mem_cons.mp h with rfl | hx
    · by_cases hc : x ∈ t.cols
      · rw [if_pos hc]; exact addMissing_cols_sup cs t x hc
      · rw [if_neg hc]; exact addMissing_cols_sup cs _ x (setCol_cols_self t x _)
    · by_cases hc : c ∈ t.cols
      · rw [if_pos hc]; exact ih t hx
      · rw [if_neg hc]; exact ih _ hx

theorem parse_logs_cols_required (t : Table) (c : String) (h : c ∈ requiredCols) :
    c ∈ (parse_logs t).cols := by
  simp only [parse_logs]
  exact setCol_cols_mem _ _ _ _ (setCol_cols_mem _ _ _ _ (setCol_cols_mem _ _ _ _
    (setCol_cols_mem _ _ _ _ (addMissing_cols_of_mem requiredCols t c h))))

theorem parse_rows_mem (t : Table) (r' : Row) (h : r' ∈ (parse_logs t).rows) :
    ∃ r1 ∈ (addMissing requiredCols t).rows,
      cell r' "Conditional Access" = condAccessOf (cell r1 "conditionalAccessStatus") ∧
      cell r' "User" = cell r1 "userPrincipalName" ∧
      cell r' "lat" = latOfLocation (cell r1 "location") ∧
      cell r' "lon" = lonOfLocation (cell r1 "location") ∧
      ∀ x, x ≠ "Conditional Access" → x ≠ "User" → x ≠ "lat" → x ≠ "lon" →
        cell r' x = cell r1 x := by
  simp only [parse_logs] at h
  obtain ⟨r4, hr4, rfl⟩ := setCol_rows_mem _ _ _ _ h
  obtain ⟨r3, hr3, rfl⟩ := setCol_rows_mem _ _ _ _ hr4
  obtain ⟨r2, hr2, rfl⟩ := setCol_rows_mem _ _ _ _ hr3
  obtain ⟨r1, hr1, rfl⟩ := setCol_rows_mem _ _ _ _ hr2
  refine ⟨r1, hr1, ?_, ?_, ?_, ?_, ?_⟩
  · simp [cell_setCell]
  · simp [cell_setCell]
  · simp [cell_setCell]
  · simp [cell_setCell]
  · intro x hx1 hx2 hx3 hx4
    rw [cell_setCell, if_neg hx4, cell_setCell, if_neg hx3, cell_setCell, if_neg hx2,
      cell_setCell, if_neg hx1]

theorem mem_dedupFirst {α : Type} [DecidableEq α] {xs : List α} {x : α} :
    x ∈ dedupFirst xs ↔ x ∈ xs := by
  have key : ∀ (ys acc : List α),
      x ∈ ys.foldl (fun acc v => if v ∈ acc then acc else acc ++ [v]) acc ↔
        x ∈ acc ∨ x ∈ ys := by
    intro ys
    induction ys with
    | nil => intro acc; simp
    | cons y ys ih =>
      intro acc
      rw [List.foldl_cons, ih]
      by_cases hy : y ∈ acc <;> by_cases hxy : x = y <;>
        simp_all [List.mem_append, List.mem_cons, or_assoc]
  simpa using key xs []

theorem groupCount_mem_iff {α : Type} [DecidableEq α] {ks : List α} {k : α} {n : Nat} :
    (k, n) ∈ groupCount ks ↔ k ∈ ks ∧ n = countOcc k ks := by
  simp only [groupCount, List.mem_map, Prod.mk.injEq]
  constructor
  · rintro ⟨v, hv, rfl, rfl⟩
    exact ⟨mem_dedupFirst.mp hv, rfl⟩
  · rintro ⟨hk, rfl⟩
    exact ⟨k, mem_dedupFirst.mpr hk, rfl, rfl⟩

theorem mem_sortByCountDesc {α : Type} {ps : List (α × Nat)} {p : α × Nat} :
    p ∈ sortByCountDesc ps ↔ p ∈ ps :=
  List.mem_insertionSort _

theorem countOcc_pos {α : Type} [DecidableEq α] {a : α} {xs : List α} (h : a ∈ xs) :
    0 < countOcc a xs := by
  induction xs with
  | nil => cases h
  | cons x xs ih =>
    rcases List.mem_cons.mp h with rfl | hx
    · simp [countOcc]
    · have := ih hx
      simp only [countOcc]
      omega

theorem countOcc_filter_true {α : Type} [DecidableEq α] (p : α → Bool) (a : α)
    (h : p a = true) (l : List α) : countOcc a (l.filter p) = countOcc a l := by
  induction l with
  | nil => rfl
  | cons b l ih =>
    by_cases hab : b = a
    · subst hab
      simp [List.filter_cons, h, countOcc, ih]
    · by_cases hb : p b <;>
        simp [List.filter_cons, hb, countOcc, ih, hab]

theorem isNull_false_iff (v : Json) : (!v.isNull) = true ↔ v ≠ Json.null := by
  cases v <;> simp [Json.isNull]

theorem value_counts_mem {xs : List Json} {k : Json} {n : Nat}
    (h : (k, n) ∈ value_counts xs) : k ∈ xs ∧ k ≠ Json.null ∧ n = countOcc k xs := by
  rw [value_counts, mem_sortByCountDesc, groupCount_mem_iff] at h
  obtain ⟨hk, hn⟩ := h
  have hmem := List.mem_filter.mp hk
  have hne : k ≠ Json.null := (isNull_false_iff k).mp hmem.2
  refine ⟨hmem.1, hne, ?_⟩
  rw [hn]
  exact countOcc_filter_true (fun v => !v.isNull) k hmem.2 xs

theorem sortByCountDesc_sorted {α : Type} (ps : List (α × Nat)) :
    List.Sorted (fun a b => b.2 ≤ a.2) (sortByCountDesc ps) :=
  List.sorted_insertionSort _ _

/-- Claim C1, counterexample: a top-level array of plain strings is
neither an array of mapping-like records nor an object with a "value"
key, yet processing succeeds and produces a one-row table instead of
failing with an error. -/
theorem c1_counterexample :
    exceptIsOk (processUpload (Json.arr [Json.str "hello"])) = true ∧
    processUpload (Json.arr [Json.str "hello"]) =
      Except.ok (parse_logs (dfOfRecords [[("0", Json.str "hello")]])) ∧
    (parse_logs (dfOfRecords [[("0", Json.str "hello")]])).rows.length = 1 :=
  ⟨by decide, rfl, by decide⟩

/-- Claim C1, amended: the spec's example input, the object with single
key "foo", does fail — DataFrame construction raises and the outermost
handler surfaces the single readable message — and every DataFrame
construction error is surfaced that way, with no table produced.  Not
every top-level shape outside the two accepted ones fails, however. -/
theorem c1_malformed_example_fails :
    processUpload (Json.obj [("foo", Json.str "bar")]) =
      Except.error "Error processing the file: If using all scalar values, you must pass an index" ∧
    ∀ raw e, pdDataFrame (unwrapEnvelope raw) = Except.error e →
      processUpload raw = Except.error ("Error processing the file: " ++ e) := by
  refine ⟨rfl, fun raw e h => ?_⟩
  simp [processUpload, h]

/-- Witness for the amended C1 theorem at a concrete erroring upload. -/
theorem c1_malformed_example_fails_witness :
    processUpload (Json.num 3) =
      Except.error ("Error processing the file: " ++ "DataFrame constructor not properly called!") :=
  c1_malformed_example_fails.2 (Json.num 3) "DataFrame constructor not properly called!" rfl

/-- Claim C2, counterexample: the normalized table's column set is not
exactly the required set — an extra raw column is retained and the
derived "lat" column is added, neither being a required column. -/
theorem c2_counterexample :
    "extraneous" ∈ (parse_logs (dfOfRecords [[("extraneous", Json.num 1)]])).cols ∧
    "extraneous" ∉ requiredCols ∧
    "lat" ∈ (parse_logs (dfOfRecords [[("extraneous", Json.num 1)]])).cols ∧
    "lat" ∉ requiredCols := by
  decide

/-- Claim C2, amended: for every input table, after normalization every
required column is present (the output columns are a superset of the
required set, not exactly it), and a required column absent from the
whole input has a null cell in every row. -/
theorem c2_required_columns (t : Table) :
    (∀ c ∈ requiredCols, c ∈ (parse_logs t).cols) ∧
    (∀ c ∈ requiredCols, c ∉ t.cols →
      ∀ r' ∈ (parse_logs t).rows, cell r' c = Json.null) := by
  constructor
  · exact fun c hc => parse_logs_cols_required t c hc
  · intro c hc hnc r' hr'
    obtain ⟨r1, hr1, -, -, -, -, hgen⟩ := parse_rows_mem t r' hr'
    have hne := (by decide :
      ∀ x ∈ requiredCols, x ≠ "Conditional Access" ∧ x ≠ "User" ∧ x ≠ "lat" ∧ x ≠ "lon") c hc
    rw [hgen c hne.1 hne.2.1 hne.2.2.1 hne.2.2.2]
    obtain ⟨r, -, hcell⟩ := addMissing_cell requiredCols t r1 hr1
    rw [hcell c, if_pos ⟨hc, hnc⟩]

/-- Witness for the amended C2 theorem at a one-record table. -/
theorem c2_required_columns_witness :
    "location" ∈ (parse_logs tblC2w).cols ∧
    cell ((parse_logs tblC2w).rows.getD 0 []) "location" = Json.null :=
  ⟨(c2_required_columns tblC2w).1 "location" (by decide),
   (c2_required_columns tblC2w).2 "location" (by decide) (by decide)
     ((parse_logs tblC2w).rows.getD 0 []) (by decide)⟩

/-- Claim C3, confirmed: in every normalized row, "Conditional Access" is
either the lower-cased copy of the raw conditional-access string or null,
and it is null whenever the raw field is not a string (null and missing
fields included, both being null cells). -/
theorem c3_conditional_access (t : Table) (r' : Row) (h : r' ∈ (parse_logs t).rows) :
    ((∃ s, cell r' "conditionalAccessStatus" = Json.str s ∧
        cell r' "Conditional Access" = Json.str (pyLower s)) ∨
      cell r' "Conditional Access" = Json.null) ∧
    ((cell r' "conditionalAccessStatus").isStr = false →
      cell r' "Conditional Access" = Json.null) := by
  obtain ⟨r1, hr1, hca, -, -, -, hgen⟩ := parse_rows_mem t r' h
  have hcas : cell r' "conditionalAccessStatus" = cell r1 "conditionalAccessStatus" :=
    hgen _ (by decide) (by decide) (by decide) (by decide)
  rw [hcas, hca]
  cases hv : cell r1 "conditionalAccessStatus" <;> simp [condAccessOf, Json.isStr]

/-- Witness for C3 at a record whose conditional-access status is the
number 7: the derived field is null. -/
theorem c3_conditional_access_witness :
    cell ((parse_logs tblC3w).rows.getD 0 []) "Conditional Access" = Json.null :=
  (c3_conditional_access tblC3w ((parse_logs tblC3w).rows.getD 0 []) (by decide)).2 (by decide)

/-- Claim C4, counterexample: a non-numeric latitude value is not
replaced by null — the extractor returns the located string unchecked. -/
theorem c4_counterexample :
    latOfLocation (Json.obj [("geoCoordinates",
        Json.obj [("latitude", Json.str "not-a-number")])]) =
      Json.str "not-a-number" ∧
    Json.str "not-a-number" ≠ Json.null :=
  ⟨rfl, by decide⟩

/-- Claim C4, amended: geo extraction is total and yields null whenever a
coordinate cannot be located (non-mapping location, missing key, or
non-subscriptable intermediate at either nesting level); a successfully
located value is returned as-is, with no numeric type check. -/
theorem c4_geo_null_on_miss (loc : Json) :
    (loc.isObj = false → latOfLocation loc = Json.null ∧ lonOfLocation loc = Json.null) ∧
    (pyIndex loc "geoCoordinates" = none →
      extract_lat loc = Json.null ∧ extract_lon loc = Json.null) ∧
    (∀ g, pyIndex loc "geoCoordinates" = some g →
      (pyIndex g "latitude" = none → extract_lat loc = Json.null) ∧
      (pyIndex g "longitude" = none → extract_lon loc = Json.null) ∧
      (∀ v, pyIndex g "latitude" = some v → extract_lat loc = v) ∧
      (∀ v, pyIndex g "longitude" = some v → extract_lon loc = v)) := by
  refine ⟨fun h => ?_, fun h => ?_,
    fun g hg => ⟨fun h => ?_, fun h => ?_, fun v hv => ?_, fun v hv => ?_⟩⟩
  · simp [latOfLocation, lonOfLocation, h]
  · simp [extract_lat, extract_lon, h]
  · simp [extract_lat, hg, h]
  · simp [extract_lon, hg, h]
  · simp [extract_lat, hg, hv]
  · simp [extract_lon, hg, hv]

/-- Witness for the amended C4 theorem across its branches. -/
theorem c4_geo_null_on_miss_witness :
    (latOfLocation (Json.str "x") = Json.null ∧ lonOfLocation (Json.str "x") = Json.null) ∧
    (extract_lat (Json.obj []) = Json.null ∧ extract_lon (Json.obj []) = Json.null) ∧
    extract_lat (Json.obj [("geoCoordinates", Json.obj [])]) = Json.null ∧
    extract_lon (Json.obj [("geoCoordinates", Json.obj [])]) = Json.null ∧
    extract_lat (Json.obj [("geoCoordinates", Json.obj [("latitude", Json.num 5)])]) =
      Json.num 5 :=
  ⟨(c4_geo_null_on_miss (Json.str "x")).1 rfl,
   (c4_geo_null_on_miss (Json.obj [])).2.1 rfl,
   ((c4_geo_null_on_miss (Json.obj [("geoCoordinates", Json.obj [])])).2.2
     (Json.obj []) rfl).1 rfl,
   ((c4_geo_null_on_miss (Json.obj [("geoCoordinates", Json.obj [])])).2.2
     (Json.obj []) rfl).2.1 rfl,
   ((c4_geo_null_on_miss (Json.obj [("geoCoordinates",
       Json.obj [("latitude", Json.num 5)])])).2.2
     (Json.obj [("latitude", Json.num 5)]) rfl).2.2.1 (Json.num 5) rfl⟩

/-- Claim C5, confirmed: the four concrete geo-extraction scenarios of
the spec evaluate as stated. -/
theorem c5_geo_scenarios :
    (latOfLocation (Json.obj [("geoCoordinates",
        Json.obj [("latitude", Json.num 47.6), ("longitude", Json.num (-122.3))])]) =
        Json.num 47.6 ∧
      lonOfLocation (Json.obj [("geoCoordinates",
        Json.obj [("latitude", Json.num 47.6), ("longitude", Json.num (-122.3))])]) =
        Json.num (-122.3)) ∧
    (latOfLocation Json.null = Json.null ∧ lonOfLocation Json.null = Json.null) ∧
    (latOfLocation (Json.str "string") = Json.null ∧
      lonOfLocation (Json.str "string") = Json.null) ∧
    (latOfLocation (Json.obj [("geoCoordinates", Json.obj [])]) = Json.null ∧
      lonOfLocation (Json.obj [("geoCoordinates", Json.obj [])]) = Json.null) :=
  ⟨⟨rfl, rfl⟩, ⟨rfl, rfl⟩, ⟨rfl, rfl⟩, ⟨rfl, rfl⟩⟩

/-- Claim C6, confirmed: the failure-reason aggregate excludes the
literal "Other." and null reasons and is truncated to at most 10 entries;
on the concrete scenario it reports exactly "Blocked" with count 3. -/
theorem c6_failure_reasons :
    reason_counts (parse_logs tblC6) = [(Json.str "Blocked", 3)] ∧
    ∀ t : Table, (reason_counts t).length ≤ 10 ∧
      ∀ k n, (k, n) ∈ reason_counts t → k ≠ Json.str "Other." ∧ k ≠ Json.null := by
  refine ⟨by decide, fun t => ⟨?_, fun k n h => ?_⟩⟩
  · rw [reason_counts]
    exact List.length_take_le _ _
  · rw [reason_counts] at h
    obtain ⟨hk, hne, -⟩ := value_counts_mem (List.take_subset _ _ h)
    exact ⟨bne_iff_ne.mp (List.mem_filter.mp hk).2, hne⟩

/-- Witness for C6's general part at the concrete scenario table. -/
theorem c6_failure_reasons_witness :
    Json.str "Blocked" ≠ Json.str "Other." ∧ Json.str "Blocked" ≠ Json.null :=
  (c6_failure_reasons.2 (parse_logs tblC6)).2 (Json.str "Blocked") 3 (by decide)

/-- Claim C7, confirmed: the per-user aggregate counts only rows with
Conditional Access "failure", grouped by user with null users dropped,
sorted by descending count; on the concrete scenario it yields A:3 and
B:1 and omits C. -/
theorem c7_per_user_failures :
    ca_fail_count (parse_logs tblC7) = [(Json.str "A", 3), (Json.str "B", 1)] ∧
    ∀ t : Table, List.Sorted (fun a b => b.2 ≤ a.2) (ca_fail_count t) ∧
      ∀ k n, (k, n) ∈ ca_fail_count t →
        0 < n ∧ k ≠ Json.null ∧
        ∃ r ∈ t.rows, cell r "Conditional Access" = Json.str "failure" ∧
          cell r "User" = k := by
  refine ⟨by decide, fun t => ⟨sortByCountDesc_sorted _, fun k n h => ?_⟩⟩
  rw [ca_fail_count, mem_sortByCountDesc, groupCount_mem_iff] at h
  obtain ⟨hk, hn⟩ := h
  have hmem := List.mem_filter.mp hk
  have hne : k ≠ Json.null := (isNull_false_iff k).mp hmem.2
  obtain ⟨r, hr, hrk⟩ := List.mem_map.mp hmem.1
  rw [ca_failures] at hr
  have hfil := List.mem_filter.mp hr
  refine ⟨?_, hne, r, hfil.1, eq_of_beq hfil.2, hrk⟩
  rw [hn]
  exact countOcc_pos hk

/-- Witness for C7's general part at the concrete scenario table. -/
theorem c7_per_user_failures_witness :
    0 < 3 ∧ Json.str "A" ≠ Json.null ∧
    ∃ r ∈ (parse_logs tblC7).rows,
      cell r "Conditional Access" = Json.str "failure" ∧
        cell r "User" = Json.str "A" :=
  (c7_per_user_failures.2 (parse_logs tblC7)).2 (Json.str "A") 3 (by decide)

/-- Claim C8, confirmed: the failure-map aggregate groups exactly the
(lat, lon) pairs of rows with Conditional Access "failure" and both
coordinates non-null, with exact per-pair counts and no top-N
truncation, and each group's display radius is max(500, sqrt(count) *
20000). -/
theorem c8_failure_map (t : Table) (k : Json × Json) (n : Nat) :
    ((k, n) ∈ show_failure_map_grouped (all_ca_failures t) ↔
      k ∈ all_ca_failures t ∧ n = countOcc k (all_ca_failures t)) ∧
    (k ∈ all_ca_failures t ↔
      ∃ r ∈ t.rows, cell r "Conditional Access" = Json.str "failure" ∧
        cell r "lat" ≠ Json.null ∧ cell r "lon" ≠ Json.null ∧
        (cell r "lat", cell r "lon") = k) ∧
    ∀ c : Nat, failure_radius c = max 500 (Real.sqrt c * 20000) := by
  refine ⟨?_, ?_, fun c => rfl⟩
  · exact groupCount_mem_iff
  · rw [all_ca_failures]
    simp only [List.mem_map, List.mem_filter, Bool.and_eq_true, beq_iff_eq, isNull_false_iff]
    constructor
    · rintro ⟨r, ⟨hr, ⟨h1, h2⟩, h3⟩, hk⟩
      exact ⟨r, hr, h1, h2, h3, hk⟩
    · rintro ⟨r, hr, h1, h2, h3, hk⟩
      exact ⟨r, ⟨hr, ⟨h1, h2⟩, h3⟩, hk⟩

/-- Witness for C8: the single geolocated failure of the concrete table
appears in the grouped aggregate with count 1. -/
theorem c8_failure_map_witness :
    ((Json.num 1, Json.num 2), 1) ∈
      show_failure_map_grouped (all_ca_failures (parse_logs tblC8w)) :=
  (c8_failure_map (parse_logs tblC8w) (Json.num 1, Json.num 2) 1).1.mpr (by decide)

/-- Claim C9, confirmed: the empty record sequence normalizes to a table
with zero rows and the full fixed column set, and every aggregate is the
empty aggregate. -/
theorem c9_empty_input :
    (parse_logs (dfOfRecords [])).rows = [] ∧
    (parse_logs (dfOfRecords [])).cols =
      requiredCols ++ ["Conditional Access", "User", "lat", "lon"] ∧
    top_apps (parse_logs (dfOfRecords [])) = [] ∧
    top_cities (parse_logs (dfOfRecords [])) = [] ∧
    reason_counts (parse_logs (dfOfRecords [])) = [] ∧
    mfa_usage (parse_logs (dfOfRecords [])) = [] ∧
    ca_fail_count (parse_logs (dfOfRecords [])) = [] ∧
    all_ca_failures (parse_logs (dfOfRecords [])) = [] ∧
    show_failure_map_grouped (all_ca_failures (parse_logs (dfOfRecords []))) = [] := by
  decide

/-- Claim C10, confirmed: in all value-counted or grouped aggregates,
null keys are excluded and each reported count is the exact multiplicity
of its (non-null) key in the corresponding key column, so null-keyed rows
contribute to no count. -/
theorem c10_null_keys_excluded (t : Table) :
    (∀ k n, (k, n) ∈ top_apps t →
      k ≠ Json.null ∧ n = countOcc k (colValues t "appDisplayName")) ∧
    (∀ k n, (k, n) ∈ top_cities t →
      k ≠ Json.null ∧ n = countOcc k ((colValues t "location").map (fun x => dictGet x "city"))) ∧
    (∀ k n, (k, n) ∈ mfa_usage t → k ≠ Json.null ∧ n = countOcc k (mfaMethods t)) ∧
    (∀ k n, (k, n) ∈ ca_fail_count t →
      k ≠ Json.null ∧ n = countOcc k ((ca_failures t).map (fun r => cell r "User"))) := by
  refine ⟨fun k n h => ?_, fun k n h => ?_, fun k n h => ?_, fun k n h => ?_⟩
  · rw [top_apps] at h
    obtain ⟨-, hne, hc⟩ := value_counts_mem (List.take_subset _ _ h)
    exact ⟨hne, hc⟩
  · rw [top_cities] at h
    obtain ⟨-, hne, hc⟩ := value_counts_mem (List.take_subset _ _ h)
    exact ⟨hne, hc⟩
  · rw [mfa_usage] at h
    obtain ⟨-, hne, hc⟩ := value_counts_mem (List.take_subset _ _ h)
    exact ⟨hne, hc⟩
  · rw [ca_fail_count, mem_sortByCountDesc, groupCount_mem_iff] at h
    obtain ⟨hk, hn⟩ := h
    have hmem := List.mem_filter.mp hk
    refine ⟨(isNull_false_iff k).mp hmem.2, ?_⟩
    rw [hn]
    exact countOcc_filter_true (fun v => !v.isNull) k hmem.2 _

/-- Witness for C10 at a one-record table carrying every grouped field. -/
theorem c10_null_keys_excluded_witness :
    (Json.str "Teams" ≠ Json.null ∧
      1 = countOcc (Json.str "Teams") (colValues (parse_logs tblC10w) "appDisplayName")) ∧
    (Json.str "Oslo" ≠ Json.null ∧
      1 = countOcc (Json.str "Oslo") ((colValues (parse_logs tblC10w) "location").map
        (fun x => dictGet x "city"))) ∧
    (Json.str "OTP" ≠ Json.null ∧
      1 = countOcc (Json.str "OTP") (mfaMethods (parse_logs tblC10w))) ∧
    (Json.str "u" ≠ Json.null ∧
      1 = countOcc (Json.str "u") ((ca_failures (parse_logs tblC10w)).map
        (fun r => cell r "User"))) :=
  ⟨(c10_null_keys_excluded (parse_logs tblC10w)).1 (Json.str "Teams") 1 (by decide),
   (c10_null_keys_excluded (parse_logs tblC10w)).2.1 (Json.str "Oslo") 1 (by decide),
   (c10_null_keys_excluded (parse_logs tblC10w)).2.2.1 (Json.str "OTP") 1 (by decide),
   (c10_null_keys_excluded (parse_logs tblC10w)).2.2.2 (Json.str "u") 1 (by decide)⟩
